import Mathlib

/-!
Shallow embedding of `src/fish_population_analysis.py`
(class `FishPopulationAnalyzer`): the loader validation, the cleaning
pipeline (`clean_data`), and the aggregation (`analyze_species`).

Modelling conventions:
* a pandas DataFrame is a list of named columns (`Column`), each a list of
  cells; a cell (`Cell`) is either a string or a number (numbers as `ℚ`);
* pandas NaN produced by `pd.to_numeric(errors="coerce")` is `Option.none`;
* `FishPopulationAnalyzer.std` aggregation: pandas computes the sample
  standard deviation (ddof = 1), which is NaN exactly when the group has
  fewer than two non-missing values.  We store the sample *variance* in the
  field `stdSq` (the standard deviation is its square root, which exists
  exactly when the variance does, so `stdSq = none` models "std is NaN");
* Python truthiness in `if species:` / `if start_year:` is modelled exactly:
  `None` and the empty string / `0` skip the filter.
-/

/-- A cell of a pandas DataFrame: either a string or a numeric value. -/
inductive Cell where
  | str : String → Cell
  | num : ℚ → Cell
deriving DecidableEq, Repr

/-- A named DataFrame column with its cells (top to bottom). -/
structure Column where
  name : String
  cells : List Cell
deriving DecidableEq, Repr

/-- A wide-format DataFrame: a list of columns, left to right. -/
abbrev RawTable := List Column

/-- The three required identifying columns checked by `_validate_data`
(lines 72-73 of the source). -/
def requiredCols : List String :=
  ["Country (Country)", "ASFIS species (ASFIS species)",
   "FAO major fishing area (FAO major fishing area)"]

/-- The default missing-value markers from `_load_config` (line 46). -/
def defaultMarkers : List String := [".", "NA", ""]

/-- The column names of a table. -/
def colNames (t : RawTable) : List String := t.map (fun c => c.name)

/-- A table is rectangular with `n` rows: every column has `n` cells. -/
abbrev Rect (t : RawTable) (n : ℕ) : Prop := ∀ c ∈ t, c.cells.length = n

/-- `_validate_data` (lines 70-77): every required column must be present;
`true` means validation passes, `false` models the raised `ValueError`. -/
def validateData (t : RawTable) : Bool :=
  requiredCols.all (fun nm => decide (nm ∈ colNames t))

/-- `col.startswith('S')` for the one-character flag marker of line 83:
the column name begins with the character `S`. -/
def isFlagName (s : String) : Bool :=
  match s.toList with
  | [] => false
  | c :: _ => c = 'S'

/-- `df.drop(columns=flag_columns)` with
`flag_columns = [col for col in df.columns if col.startswith('S')]`
(lines 83-84). -/
def dropFlags (t : RawTable) : RawTable :=
  t.filter (fun c => ! isFlagName c.name)

/-- `df.replace(marker, 0)` on one cell: a string cell equal to the marker
becomes the number `0`; every other cell is unchanged (line 88). -/
def replaceMarker (m : String) (c : Cell) : Cell :=
  match c with
  | Cell.str s => if s = m then Cell.num 0 else Cell.str s
  | Cell.num q => Cell.num q

/-- The `for marker in markers: df = df.replace(marker, 0)` loop applied to
one cell (lines 87-88). -/
def replaceAll (ms : List String) (c : Cell) : Cell :=
  ms.foldl (fun c m => replaceMarker m c) c

/-- Marker replacement applied across the whole table. -/
def replaceMarkersT (ms : List String) (t : RawTable) : RawTable :=
  t.map (fun c => ⟨c.name, c.cells.map (replaceAll ms)⟩)

/-- The wide-table part of `clean_data`: drop flag columns, then replace all
configured missing-value markers with zero (lines 82-88); this is the value
of `self.data` after those lines. -/
def cleanWide (ms : List String) (t : RawTable) : RawTable :=
  replaceMarkersT ms (dropFlags t)

/-- One row of the melted (long-format) frame produced by `pd.melt`
(lines 91-97), before the numeric coercion of lines 101-102. -/
structure MeltRow where
  country : Cell
  species : Cell
  area : Cell
  yearLabel : String
  value : Cell
deriving DecidableEq, Repr

/-- Column lookup by name (pandas `df[name]`, first match). -/
def getCol (t : RawTable) (nm : String) : Option Column :=
  t.find? (fun c => c.name = nm)

/-- Zip four lists positionally, truncating at the shortest. -/
def zip4 {α β γ δ : Type} : List α → List β → List γ → List δ →
    List (α × β × γ × δ)
  | a :: as, b :: bs, c :: cs, d :: ds => (a, b, c, d) :: zip4 as bs cs ds
  | _, _, _, _ => []

/-- `pd.melt(df, id_vars=[the three required columns], var_name="Year",
value_name="Population")` (lines 91-97).  Every column other than the three
identifying ones is a value (year) column; the output lists, value column by
value column, one row per input row.  `none` models the `KeyError` pandas
raises when an `id_vars` column is missing. -/
def melt (t : RawTable) : Option (List MeltRow) :=
  match getCol t "Country (Country)",
        getCol t "ASFIS species (ASFIS species)",
        getCol t "FAO major fishing area (FAO major fishing area)" with
  | some c1, some c2, some c3 =>
      some ((t.filter (fun c => ! (decide (c.name ∈ requiredCols)))).flatMap
        (fun c => (zip4 c1.cells c2.cells c3.cells c.cells).map
          (fun q => ⟨q.1, q.2.1, q.2.2.1, c.name, q.2.2.2⟩)))
  | _, _, _ => none

/-- Value of a nonempty digit string (base 10). -/
def natOfDigits (l : List Char) : ℕ :=
  l.foldl (fun a c => 10 * a + (c.toNat - 48)) 0

/-- Parse an unsigned decimal literal (`"12"`, `"12.5"`, `".5"`, `"12."`).
Simplified model of the numeric strings accepted by `pd.to_numeric`;
scientific notation is omitted, which no claim depends on. -/
def parseUnsigned (l : List Char) : Option ℚ :=
  let ip := l.takeWhile Char.isDigit
  match l.dropWhile Char.isDigit with
  | [] => if ip.isEmpty then none else some (natOfDigits ip)
  | '.' :: fp =>
      if fp.all Char.isDigit && ! (ip.isEmpty && fp.isEmpty) then
        some ((natOfDigits ip : ℚ) + (natOfDigits fp : ℚ) / (10 : ℚ) ^ fp.length)
      else none
  | _ => none

/-- Parse a signed decimal literal; `none` models the NaN produced by
`pd.to_numeric(..., errors="coerce")` on an unparseable string. -/
def parseNum (s : String) : Option ℚ :=
  match s.toList with
  | '-' :: rest => (parseUnsigned rest).map (fun q => -q)
  | '+' :: rest => parseUnsigned rest
  | l => parseUnsigned l

/-- `pd.to_numeric(errors="coerce")` on one cell: numbers pass through,
strings are parsed, failures become NaN (`none`). -/
def toNum : Cell → Option ℚ
  | Cell.num q => some q
  | Cell.str s => parseNum s

/-- One row of `self.processed_data` after the renaming and numeric coercion
of lines 100-102: columns Country, Species, Fishing_Area, Year, Population,
with Year and Population numeric-or-NaN. -/
structure LongRow where
  country : Cell
  species : Cell
  area : Cell
  year : Option ℚ
  pop : Option ℚ
deriving DecidableEq, Repr

/-- Lines 100-102 applied to one melted row: the Year column holds the
former column labels (strings) and is coerced, as is Population. -/
def coerceRow (m : MeltRow) : LongRow :=
  ⟨m.country, m.species, m.area, parseNum m.yearLabel, toNum m.value⟩

/-- The functional content of `clean_data` (lines 79-102): clean the wide
table, melt it, coerce Year and Population.  `none` models the exception
path (missing identifying column at the melt step). -/
def clean (ms : List String) (t : RawTable) : Option (List LongRow) :=
  (melt (cleanWide ms t)).map (fun l => l.map coerceRow)

/-- The mutable state of a `FishPopulationAnalyzer`: `self.data` and
`self.processed_data` (`none` models Python `None`). -/
structure AnalyzerState where
  data : RawTable
  processed : Option (List LongRow)
deriving DecidableEq

/-- `clean_data` as a state transformer.  `self.data` is mutated in place by
the drop and replace steps (lines 84, 88) even when the later melt raises,
in which case `self.processed_data` keeps its previous value. -/
def cleanData (ms : List String) (s : AnalyzerState) : AnalyzerState :=
  let d := cleanWide ms s.data
  match melt d with
  | some l => ⟨d, some (l.map coerceRow)⟩
  | none => ⟨d, s.processed⟩

/-- `load_data` (lines 55-68): `self.data` is set, then validated; the
boolean is `false` when `_validate_data` raises.  `self.processed_data` is
untouched either way. -/
def loadData (s : AnalyzerState) (t : RawTable) : AnalyzerState × Bool :=
  (⟨t, s.processed⟩, validateData t)

/-- `filtered_data["Species"] == species` on one row (line 132). -/
def speciesMatch (s : String) (r : LongRow) : Bool :=
  decide (r.species = Cell.str s)

/-- `filtered_data["Country"] == country` on one row (line 134). -/
def countryMatch (s : String) (r : LongRow) : Bool :=
  decide (r.country = Cell.str s)

/-- `filtered_data["Year"] >= start_year` on one row (line 136); a NaN Year
compares false. -/
def yearGe (n : ℤ) (r : LongRow) : Bool :=
  match r.year with
  | some y => decide ((n : ℚ) ≤ y)
  | none => false

/-- `filtered_data["Year"] <= end_year` on one row (line 138); a NaN Year
compares false. -/
def yearLe (n : ℤ) (r : LongRow) : Bool :=
  match r.year with
  | some y => decide (y ≤ (n : ℚ))
  | none => false

/-- `if species: ...` (lines 131-132): the filter runs only when `species`
is truthy, i.e. neither `None` nor the empty string. -/
def filterSpecies (sp : Option String) (t : List LongRow) : List LongRow :=
  match sp with
  | none => t
  | some s => if s = "" then t else t.filter (speciesMatch s)

/-- `if country: ...` (lines 133-134). -/
def filterCountry (co : Option String) (t : List LongRow) : List LongRow :=
  match co with
  | none => t
  | some s => if s = "" then t else t.filter (countryMatch s)

/-- `if start_year: ...` (lines 135-136): `0` is falsy in Python, so a zero
start year skips the filter. -/
def filterStart (sy : Option ℤ) (t : List LongRow) : List LongRow :=
  match sy with
  | none => t
  | some n => if n = 0 then t else t.filter (yearGe n)

/-- `if end_year: ...` (lines 137-138). -/
def filterEnd (ey : Option ℤ) (t : List LongRow) : List LongRow :=
  match ey with
  | none => t
  | some n => if n = 0 then t else t.filter (yearLe n)

/-- The four filters of `analyze_species`, applied in source order
(lines 130-138). -/
def applyFilters (t : List LongRow) (sp co : Option String)
    (sy ey : Option ℤ) : List LongRow :=
  filterEnd ey (filterStart sy (filterCountry co (filterSpecies sp t)))

/-- One output row of `analyze_species` (lines 141-143): per-year sum, mean,
sample standard deviation and count of Population.  `mean = none` and
`stdSq = none` model pandas NaN; `stdSq` is the sample variance (ddof = 1),
whose square root is the reported std and which is NaN for groups with
fewer than two non-missing values. -/
structure YearAgg where
  year : ℚ
  sum : ℚ
  mean : Option ℚ
  stdSq : Option ℚ
  count : ℕ
deriving DecidableEq, Repr

/-- The non-missing Population values of the rows with the given Year. -/
def popsFor (rows : List LongRow) (y : ℚ) : List ℚ :=
  (rows.filter (fun r => decide (r.year = some y))).filterMap (fun r => r.pop)

/-- The `agg(['sum', 'mean', 'std', 'count'])` of one Year group: pandas
skips NaN, sums an all-NaN group to `0`, and reports NaN mean for empty
groups and NaN std for groups of fewer than two values. -/
def aggFor (rows : List LongRow) (y : ℚ) : YearAgg :=
  let ps := popsFor rows y
  let n := ps.length
  let s := ps.sum
  { year := y
    sum := s
    mean := if n = 0 then none else some (s / (n : ℚ))
    stdSq := if n < 2 then none else
      some ((ps.map (fun p => (p - s / (n : ℚ)) ^ 2)).sum / ((n : ℚ) - 1))
    count := n }

/-- The non-NaN Year keys of a long table, with multiplicity. -/
def yearsOf (rows : List LongRow) : List ℚ :=
  rows.filterMap (fun r => r.year)

/-- The distinct group keys sorted ascending, as `groupby("Year")`
(default `sort=True`, NaN keys dropped) produces them. -/
def sortYears (l : List ℚ) : List ℚ :=
  List.insertionSort (fun a b => a ≤ b) l.dedup

/-- `analyze_species` (lines 109-145): filter, group by Year, aggregate
Population, one output row per distinct non-NaN Year, ascending. -/
def analyze (t : List LongRow) (sp co : Option String)
    (sy ey : Option ℤ) : List YearAgg :=
  let f := applyFilters t sp co sy ey
  (sortYears (yearsOf f)).map (aggFor f)

/-- Spec-side predicate: the species filter as the code actually applies
it — active only when the argument is truthy (neither `None` nor `""`). -/
def speciesPass (sp : Option String) (r : LongRow) : Bool :=
  match sp with
  | none => true
  | some s => if s = "" then true else speciesMatch s r

/-- Spec-side predicate for the country filter (truthy arguments only). -/
def countryPass (co : Option String) (r : LongRow) : Bool :=
  match co with
  | none => true
  | some s => if s = "" then true else countryMatch s r

/-- Spec-side predicate for the minimum-year filter (truthy arguments
only; a supplied `0` is falsy and imposes no restriction). -/
def startPass (sy : Option ℤ) (r : LongRow) : Bool :=
  match sy with
  | none => true
  | some n => if n = 0 then true else yearGe n r

/-- Spec-side predicate for the maximum-year filter (truthy arguments
only). -/
def endPass (ey : Option ℤ) (r : LongRow) : Bool :=
  match ey with
  | none => true
  | some n => if n = 0 then true else yearLe n r

/-- Spec-side row predicate: a row satisfies every active filter. -/
def passesFilters (sp co : Option String) (sy ey : Option ℤ)
    (r : LongRow) : Bool :=
  speciesPass sp r && countryPass co r && startPass sy r && endPass ey r

/-- A synthetic long-table row with fixed identifying cells. -/
def synthRow (y p : ℚ) : LongRow :=
  ⟨Cell.str "X", Cell.str "A", Cell.str "27", some y, some p⟩

/-- The synthetic long table of the aggregation-correctness property:
rows (Year 2000, Pop 10), (Year 2000, Pop 20), (Year 2001, Pop 5). -/
def synthTable : List LongRow :=
  [synthRow 2000 10, synthRow 2000 20, synthRow 2001 5]

/-- A small well-formed raw table: the three identifying columns, one flag
column and one year column, one data row. -/
def sampleRaw : RawTable :=
  [⟨"Country (Country)", [Cell.str "Albania"]⟩,
   ⟨"ASFIS species (ASFIS species)", [Cell.str "FCY"]⟩,
   ⟨"FAO major fishing area (FAO major fishing area)", [Cell.str "37"]⟩,
   ⟨"S 2000", [Cell.str "E"]⟩,
   ⟨"2000", [Cell.str "."]⟩]

/-- A raw table missing two of the required identifying columns. -/
def badRaw : RawTable :=
  [⟨"Country (Country)", [Cell.str "Albania"]⟩,
   ⟨"2000", [Cell.num 7]⟩]

/-- A fresh analyzer state (`self.data` empty, `self.processed_data`
`None`). -/
def initState : AnalyzerState := ⟨[], none⟩

/-! ## Helper lemmas -/

theorem replaceMarker_preserve {m2 : String} (m : String) {c : Cell}
    (h : c ≠ Cell.str m2) : replaceMarker m c ≠ Cell.str m2 := by
  cases c with
  | str s =>
      by_cases hs : s = m <;> simp [replaceMarker, hs] <;> simpa using h
  | num q => simp [replaceMarker]

theorem replaceMarker_not (m : String) (c : Cell) :
    replaceMarker m c ≠ Cell.str m := by
  cases c with
  | str s => by_cases hs : s = m <;> simp [replaceMarker, hs, hs]
  | num q => simp [replaceMarker]

theorem replaceAll_preserve {m : String} (ms : List String) {c : Cell}
    (h : c ≠ Cell.str m) : replaceAll ms c ≠ Cell.str m := by
  induction ms generalizing c with
  | nil => simpa [replaceAll] using h
  | cons m0 rest ih =>
      simpa [replaceAll] using ih (replaceMarker_preserve m0 h)

theorem replaceAll_not_marker {m : String} {ms : List String} (c : Cell)
    (h : m ∈ ms) : replaceAll ms c ≠ Cell.str m := by
  induction ms generalizing c with
  | nil => cases h
  | cons m0 rest ih =>
      rcases List.mem_cons.mp h with h0 | h0
      · subst h0
        simpa [replaceAll] using replaceAll_preserve rest (replaceMarker_not m c)
      · simpa [replaceAll] using ih (replaceMarker m0 c) h0

theorem replaceMarker_fixed {m : String} {c : Cell} (h : c ≠ Cell.str m) :
    replaceMarker m c = c := by
  cases c with
  | str s =>
      have hs : s ≠ m := by intro hs; exact h (by rw [hs])
      simp [replaceMarker, hs]
  | num q => simp [replaceMarker]

theorem replaceAll_fixed {ms : List String} {c : Cell}
    (h : ∀ m ∈ ms, c ≠ Cell.str m) : replaceAll ms c = c := by
  induction ms with
  | nil => rfl
  | cons m0 rest ih =>
      have h0 : replaceMarker m0 c = c := replaceMarker_fixed (h m0 (by simp))
      simp only [replaceAll, List.foldl_cons, h0]
      exact ih (fun m hm => h m (by simp [hm]))

theorem replaceAll_idem (ms : List String) (c : Cell) :
    replaceAll ms (replaceAll ms c) = replaceAll ms c :=
  replaceAll_fixed (fun m hm => replaceAll_not_marker c hm)

theorem colNames_replaceMarkersT (ms : List String) (t : RawTable) :
    colNames (replaceMarkersT ms t) = colNames t := by
  simp [colNames, replaceMarkersT, List.map_map]

theorem dropFlags_replaceMarkersT (ms : List String) (t : RawTable) :
    dropFlags (replaceMarkersT ms t) = replaceMarkersT ms (dropFlags t) := by
  simp only [dropFlags, replaceMarkersT, List.filter_map]
  rfl

theorem dropFlags_idem (t : RawTable) :
    dropFlags (dropFlags t) = dropFlags t := by
  simp [dropFlags, List.filter_filter]

theorem replaceMarkersT_idem (ms : List String) (t : RawTable) :
    replaceMarkersT ms (replaceMarkersT ms t) = replaceMarkersT ms t := by
  simp only [replaceMarkersT, List.map_map]
  refine List.map_congr_left (fun c _ => ?_)
  simp only [Function.comp_apply, List.map_map]
  refine congrArg (fun l => Column.mk c.name l) ?_
  exact List.map_congr_left (fun x _ => by
    simpa [Function.comp] using replaceAll_idem ms x)

theorem cleanWide_idem (ms : List String) (t : RawTable) :
    cleanWide ms (cleanWide ms t) = cleanWide ms t := by
  unfold cleanWide
  rw [dropFlags_replaceMarkersT, dropFlags_idem, replaceMarkersT_idem]

theorem getCol_eq_some {u : RawTable} {nm : String} (h : nm ∈ colNames u) :
    ∃ c, getCol u nm = some c ∧ c.name = nm ∧ c ∈ u := by
  have hex : (u.find? (fun c => c.name = nm)).isSome := by
    rw [List.find?_isSome]
    rcases List.mem_map.mp h with ⟨c, hc, he⟩
    exact ⟨c, hc, by simp [he]⟩
  rcases Option.isSome_iff_exists.mp hex with ⟨c, hc⟩
  refine ⟨c, hc, ?_, List.mem_of_find?_eq_some hc⟩
  simpa using List.find?_some hc

theorem required_not_flag : ∀ nm ∈ requiredCols, isFlagName nm = false := by
  decide

theorem mem_colNames_dropFlags {t : RawTable} {nm : String}
    (h : nm ∈ colNames t) (hf : isFlagName nm = false) :
    nm ∈ colNames (dropFlags t) := by
  rcases List.mem_map.mp h with ⟨c, hc, rfl⟩
  exact List.mem_map.mpr ⟨c, List.mem_filter.mpr ⟨hc, by simp [hf]⟩, rfl⟩

theorem mem_colNames_cleanWide {ms : List String} {t : RawTable} {nm : String}
    (h : nm ∈ colNames t) (hf : isFlagName nm = false) :
    nm ∈ colNames (cleanWide ms t) := by
  rw [cleanWide, colNames_replaceMarkersT]
  exact mem_colNames_dropFlags h hf

theorem rect_cleanWide {ms : List String} {t : RawTable} {n : ℕ}
    (h : Rect t n) : Rect (cleanWide ms t) n := by
  intro c hc
  rcases List.mem_map.mp hc with ⟨c0, hc0, rfl⟩
  simpa using h c0 (List.mem_of_mem_filter hc0)

theorem melt_eq_some {u : RawTable}
    (h : ∀ nm ∈ requiredCols, nm ∈ colNames u) :
    ∃ c1 c2 c3,
      getCol u "Country (Country)" = some c1 ∧ c1 ∈ u ∧
      getCol u "ASFIS species (ASFIS species)" = some c2 ∧ c2 ∈ u ∧
      getCol u "FAO major fishing area (FAO major fishing area)" = some c3 ∧
      c3 ∈ u ∧
      melt u = some
        ((u.filter (fun c => ! (decide (c.name ∈ requiredCols)))).flatMap
          (fun c => (zip4 c1.cells c2.cells c3.cells c.cells).map
            (fun q => ⟨q.1, q.2.1, q.2.2.1, c.name, q.2.2.2⟩))) := by
  rcases getCol_eq_some (h "Country (Country)" (by simp [requiredCols]))
    with ⟨c1, h1, _, hm1⟩
  rcases getCol_eq_some (h "ASFIS species (ASFIS species)"
    (by simp [requiredCols])) with ⟨c2, h2, _, hm2⟩
  rcases getCol_eq_some (h "FAO major fishing area (FAO major fishing area)"
    (by simp [requiredCols])) with ⟨c3, h3, _, hm3⟩
  exact ⟨c1, c2, c3, h1, hm1, h2, hm2, h3, hm3, by rw [melt, h1, h2, h3]⟩

theorem zip4_length {α β γ δ : Type} {n : ℕ} :
    ∀ (a : List α) (b : List β) (c : List γ) (d : List δ),
      a.length = n → b.length = n → c.length = n → d.length = n →
      (zip4 a b c d).length = n := by
  induction n with
  | zero =>
      intro a b c d ha hb hc hd
      rw [List.length_eq_zero] at ha hb hc hd
      subst ha; subst hb; subst hc; subst hd
      rfl
  | succ k ih =>
      intro a b c d ha hb hc hd
      cases a with
      | nil => simp at ha
      | cons x as =>
        cases b with
        | nil => simp at hb
        | cons y bs =>
          cases c with
          | nil => simp at hc
          | cons z cs =>
            cases d with
            | nil => simp at hd
            | cons w ds =>
              simp only [List.length_cons, Nat.succ.injEq] at ha hb hc hd
              simp only [zip4, List.length_cons]
              rw [ih as bs cs ds ha hb hc hd]

theorem mem_filterSpecies {sp : Option String} {t : List LongRow}
    {r : LongRow} :
    r ∈ filterSpecies sp t ↔ r ∈ t ∧ speciesPass sp r = true := by
  cases sp with
  | none => simp [filterSpecies, speciesPass]
  | some s =>
      by_cases hs : s = ""
      · simp [filterSpecies, speciesPass, hs]
      · simp [filterSpecies, speciesPass, hs, List.mem_filter]

theorem mem_filterCountry {co : Option String} {t : List LongRow}
    {r : LongRow} :
    r ∈ filterCountry co t ↔ r ∈ t ∧ countryPass co r = true := by
  cases co with
  | none => simp [filterCountry, countryPass]
  | some s =>
      by_cases hs : s = ""
      · simp [filterCountry, countryPass, hs]
      · simp [filterCountry, countryPass, hs, List.mem_filter]

theorem mem_filterStart {sy : Option ℤ} {t : List LongRow} {r : LongRow} :
    r ∈ filterStart sy t ↔ r ∈ t ∧ startPass sy r = true := by
  cases sy with
  | none => simp [filterStart, startPass]
  | some n =>
      by_cases hn : n = 0
      · simp [filterStart, startPass, hn]
      · simp [filterStart, startPass, hn, List.mem_filter]

theorem mem_filterEnd {ey : Option ℤ} {t : List LongRow} {r : LongRow} :
    r ∈ filterEnd ey t ↔ r ∈ t ∧ endPass ey r = true := by
  cases ey with
  | none => simp [filterEnd, endPass]
  | some n =>
      by_cases hn : n = 0
      · simp [filterEnd, endPass, hn]
      · simp [filterEnd, endPass, hn, List.mem_filter]

theorem analyze_year_map (t : List LongRow) (sp co : Option String)
    (sy ey : Option ℤ) :
    (analyze t sp co sy ey).map (fun a => a.year) =
      sortYears (yearsOf (applyFilters t sp co sy ey)) := by
  simp only [analyze, List.map_map]
  have h : ((fun a : YearAgg => a.year) ∘ aggFor (applyFilters t sp co sy ey)) =
      id := funext (fun y => rfl)
  rw [h, List.map_id]

theorem filterSpecies_empty (t : List LongRow) :
    filterSpecies (some "") t = filterSpecies none t := by
  simp [filterSpecies]

theorem filterCountry_empty (t : List LongRow) :
    filterCountry (some "") t = filterCountry none t := by
  simp [filterCountry]

theorem filterStart_zero (t : List LongRow) :
    filterStart (some 0) t = filterStart none t := by
  simp [filterStart]

theorem filterEnd_zero (t : List LongRow) :
    filterEnd (some 0) t = filterEnd none t := by
  simp [filterEnd]

/-! ## Claim theorems -/

/-- Claim C1: for the synthetic long table with rows (Year 2000, Pop 10),
(Year 2000, Pop 20), (Year 2001, Pop 5), aggregating with all four filters
absent yields exactly two aggregate rows: Year 2000 with Sum 30, Mean 15,
Count 2, and Year 2001 with Sum 5, Mean 5, Count 1 and an undefined (NaN)
sample standard deviation (`stdSq = none`) for the single-row group. -/
theorem analyze_synthetic_correct :
    analyze synthTable none none none none =
      [⟨2000, 30, some 15, some 50, 2⟩, ⟨2001, 5, some 5, none, 1⟩] := by
  norm_num [analyze, applyFilters, filterSpecies, filterCountry, filterStart,
    filterEnd, sortYears, yearsOf, synthTable, synthRow, List.dedup,
    List.pwFilter, List.insertionSort, List.orderedInsert, aggFor, popsFor,
    List.filterMap_cons, List.sum_cons]

/-- Claim C2: for every raw table accepted by the loader (required columns
present, table rectangular with `n` rows), cleaning succeeds and the long
table has `n` times as many rows as there are year columns, the year
columns being the columns remaining after flag-column removal other than
the three identifying columns. -/
theorem clean_rowcount_law (ms : List String) (t : RawTable) (n : ℕ)
    (hrect : Rect t n) (hreq : ∀ nm ∈ requiredCols, nm ∈ colNames t) :
    ∃ l, clean ms t = some l ∧
      l.length = n *
        ((dropFlags t).filter
          (fun c => ! (decide (c.name ∈ requiredCols)))).length := by
  have hreq2 : ∀ nm ∈ requiredCols, nm ∈ colNames (cleanWide ms t) :=
    fun nm hnm => mem_colNames_cleanWide (hreq nm hnm) (required_not_flag nm hnm)
  rcases melt_eq_some hreq2 with
    ⟨c1, c2, c3, _, hm1, _, hm2, _, hm3, hmelt⟩
  have hrc : Rect (cleanWide ms t) n := rect_cleanWide hrect
  refine ⟨_, by rw [clean, hmelt]; rfl, ?_⟩
  rw [List.length_map, List.length_flatMap]
  have hcongr :
      ((cleanWide ms t).filter
        (fun c => ! (decide (c.name ∈ requiredCols)))).map
        (List.length ∘ (fun c => (zip4 c1.cells c2.cells c3.cells c.cells).map
          (fun q => (⟨q.1, q.2.1, q.2.2.1, c.name, q.2.2.2⟩ : MeltRow)))) =
      ((cleanWide ms t).filter
        (fun c => ! (decide (c.name ∈ requiredCols)))).map
        (Function.const Column n) := by
    refine List.map_congr_left (fun c hc => ?_)
    simp only [Function.comp_apply, List.length_map, Function.const_apply]
    exact zip4_length c1.cells c2.cells c3.cells c.cells
      (hrc c1 hm1) (hrc c2 hm2) (hrc c3 hm3)
      (hrc c (List.mem_of_mem_filter hc))
  rw [hcongr, List.map_const, List.sum_replicate, smul_eq_mul]
  have hflen :
      ((cleanWide ms t).filter
        (fun c => ! (decide (c.name ∈ requiredCols)))).length =
      ((dropFlags t).filter
        (fun c => ! (decide (c.name ∈ requiredCols)))).length := by
    rw [cleanWide, replaceMarkersT, List.filter_map, List.length_map]
    rfl
  rw [hflen, Nat.mul_comm]

/-- Witness for claim C2 on a concrete five-column, one-row raw table. -/
theorem clean_rowcount_law_witness :
    Rect sampleRaw 1 ∧ (∀ nm ∈ requiredCols, nm ∈ colNames sampleRaw) ∧
    ∃ l, clean defaultMarkers sampleRaw = some l ∧
      l.length = 1 *
        ((dropFlags sampleRaw).filter
          (fun c => ! (decide (c.name ∈ requiredCols)))).length :=
  ⟨by decide, by decide,
    clean_rowcount_law defaultMarkers sampleRaw 1 (by decide) (by decide)⟩

/-- Claim C3: cleaning is idempotent — re-running `clean_data` on the
analyzer state produced by `clean_data` leaves the state unchanged, and in
particular the flag-column drop and the missing-marker replacement are
unchanged under re-application. -/
theorem cleaning_idempotent (ms : List String) (s : AnalyzerState)
    (t : RawTable) :
    cleanData ms (cleanData ms s) = cleanData ms s ∧
    dropFlags (dropFlags t) = dropFlags t ∧
    replaceMarkersT ms (replaceMarkersT ms t) = replaceMarkersT ms t := by
  refine ⟨?_, dropFlags_idem t, replaceMarkersT_idem ms t⟩
  unfold cleanData
  cases h : melt (cleanWide ms s.data) with
  | some l => simp [h, cleanWide_idem]
  | none => simp [h, cleanWide_idem]

/-- Claim C4: after flag-column removal and marker replacement, no cell of
the table equals any configured missing-value marker. -/
theorem cleanWide_no_marker_survives (ms : List String) (t : RawTable)
    (m : String) (col : Column) (c : Cell) (hm : m ∈ ms)
    (hcol : col ∈ cleanWide ms t) (hc : c ∈ col.cells) :
    c ≠ Cell.str m := by
  rcases List.mem_map.mp hcol with ⟨c0, _, rfl⟩
  rcases List.mem_map.mp hc with ⟨x, _, rfl⟩
  exact replaceAll_not_marker x hm

/-- Witness for claim C4: the `.` cell of the concrete table has become
the number `0`, which differs from the marker string. -/
theorem cleanWide_no_marker_survives_witness :
    (("." : String) ∈ defaultMarkers) ∧
    (⟨"2000", [Cell.num 0]⟩ : Column) ∈ cleanWide defaultMarkers sampleRaw ∧
    Cell.num 0 ∈ (⟨"2000", [Cell.num 0]⟩ : Column).cells ∧
    Cell.num 0 ≠ Cell.str "." :=
  ⟨by decide, by decide, by decide,
    cleanWide_no_marker_survives defaultMarkers sampleRaw "."
      ⟨"2000", [Cell.num 0]⟩ (Cell.num 0) (by decide) (by decide) (by decide)⟩

/-- Claim C5, counterexample: with the species filter supplied as the empty
string, a row whose species is `"A"` — which does not satisfy the supplied
species exact-match — still survives filtering, because the code tests the
filter argument by truthiness.  This refutes the claim that a row survives
if and only if it satisfies every supplied filter. -/
theorem filters_conjunctive_cx :
    synthRow 2000 10 ∈ applyFilters synthTable (some "") none none none ∧
    speciesMatch "" (synthRow 2000 10) = false := by
  decide

/-- Claim C5, amended: a row survives filtering if and only if it satisfies
every supplied *truthy* filter; an absent filter — or a supplied falsy one
(empty-string species or country, zero minimum or maximum year) — imposes
no restriction. -/
theorem applyFilters_conjunctive_truthy (t : List LongRow)
    (sp co : Option String) (sy ey : Option ℤ) (r : LongRow) :
    r ∈ applyFilters t sp co sy ey ↔
      r ∈ t ∧ passesFilters sp co sy ey r = true := by
  simp [applyFilters, mem_filterEnd, mem_filterStart, mem_filterCountry,
    mem_filterSpecies, passesFilters, Bool.and_eq_true, and_assoc]

/-- Claim C6: when the supplied filters exclude every row of the long
table, the aggregator returns an empty aggregate set (and, being a total
function, raises no error). -/
theorem analyze_empty_no_survivors (t : List LongRow) (sp co : Option String)
    (sy ey : Option ℤ) (h : applyFilters t sp co sy ey = []) :
    analyze t sp co sy ey = [] := by
  simp [analyze, h, yearsOf, sortYears]

/-- Witness for claim C6: filtering the synthetic table on a species that
appears in no row yields an empty aggregate set. -/
theorem analyze_empty_no_survivors_witness :
    applyFilters synthTable (some "B") none none none = [] ∧
    analyze synthTable (some "B") none none none = [] :=
  ⟨by decide,
    analyze_empty_no_survivors synthTable (some "B") none none none (by decide)⟩

/-- Claim C7: on every loader-accepted table, cleaning succeeds (numeric
parsing never raises) and every Year and Population value of the long table
is either numeric (`some`) or the explicit missing sentinel (`none`). -/
theorem clean_parse_never_raises (ms : List String) (t : RawTable)
    (hreq : ∀ nm ∈ requiredCols, nm ∈ colNames t) :
    ∃ l, clean ms t = some l ∧ ∀ r ∈ l,
      (r.year = none ∨ ∃ q, r.year = some q) ∧
      (r.pop = none ∨ ∃ q, r.pop = some q) := by
  have hreq2 : ∀ nm ∈ requiredCols, nm ∈ colNames (cleanWide ms t) :=
    fun nm hnm => mem_colNames_cleanWide (hreq nm hnm) (required_not_flag nm hnm)
  rcases melt_eq_some hreq2 with ⟨c1, c2, c3, _, _, _, _, _, _, hmelt⟩
  refine ⟨_, by rw [clean, hmelt]; rfl, ?_⟩
  intro r _
  constructor
  · cases hy : r.year with
    | none => exact Or.inl rfl
    | some q => exact Or.inr ⟨q, rfl⟩
  · cases hp : r.pop with
    | none => exact Or.inl rfl
    | some q => exact Or.inr ⟨q, rfl⟩

/-- Witness for claim C7 on the concrete five-column raw table. -/
theorem clean_parse_never_raises_witness :
    (∀ nm ∈ requiredCols, nm ∈ colNames sampleRaw) ∧
    ∃ l, clean defaultMarkers sampleRaw = some l ∧ ∀ r ∈ l,
      (r.year = none ∨ ∃ q, r.year = some q) ∧
      (r.pop = none ∨ ∃ q, r.pop = some q) :=
  ⟨by decide, clean_parse_never_raises defaultMarkers sampleRaw (by decide)⟩

/-- Claim C8: loading a table that lacks one of the three required
identifying columns fails validation (the `ValueError` of
`_validate_data`), and `self.processed_data` is untouched — no cleaning
output is produced. -/
theorem load_missing_column_fails (s : AnalyzerState) (t : RawTable)
    (h : ∃ nm ∈ requiredCols, nm ∉ colNames t) :
    (loadData s t).2 = false ∧ (loadData s t).1.processed = s.processed := by
  refine ⟨?_, rfl⟩
  rcases h with ⟨nm, hnm, hmem⟩
  simp only [loadData, validateData]
  rw [List.all_eq_false]
  exact ⟨nm, hnm, by simpa using hmem⟩

/-- Witness for claim C8 on a table missing two required columns. -/
theorem load_missing_column_fails_witness :
    (∃ nm ∈ requiredCols, nm ∉ colNames badRaw) ∧
    (loadData initState badRaw).2 = false ∧
    (loadData initState badRaw).1.processed = initState.processed :=
  ⟨by decide, load_missing_column_fails initState badRaw (by decide)⟩

/-- Claim C9: for every long table and filter combination, the aggregate
sequence is strictly ascending in Year — hence one row per distinct year —
and its Years are exactly the non-missing Years of the rows surviving the
filters. -/
theorem analyze_sorted_one_per_year (t : List LongRow)
    (sp co : Option String) (sy ey : Option ℤ) :
    ((analyze t sp co sy ey).map (fun a => a.year)).Sorted
      (fun a b : ℚ => a < b) ∧
    ∀ y : ℚ, (y ∈ (analyze t sp co sy ey).map (fun a => a.year) ↔
      ∃ r ∈ applyFilters t sp co sy ey, r.year = some y) := by
  rw [analyze_year_map]
  constructor
  · have hle : (sortYears (yearsOf (applyFilters t sp co sy ey))).Sorted
        (fun a b : ℚ => a ≤ b) := List.sorted_insertionSort _ _
    have hnd : (sortYears (yearsOf (applyFilters t sp co sy ey))).Nodup :=
      (List.perm_insertionSort _ _).nodup_iff.mpr (List.nodup_dedup _)
    exact hle.lt_of_le hnd
  · intro y
    rw [sortYears, List.mem_insertionSort, List.mem_dedup, yearsOf,
      List.mem_filterMap]

/-- Claim C10: a supplied falsy filter value — species or country equal to
the empty string, or a minimum or maximum year equal to `0` — is treated
exactly as an absent filter: the aggregate is the same as with the filter
omitted. -/
theorem falsy_filter_is_absent (t : List LongRow) (sp co : Option String)
    (sy ey : Option ℤ) :
    analyze t (some "") co sy ey = analyze t none co sy ey ∧
    analyze t sp (some "") sy ey = analyze t sp none sy ey ∧
    analyze t sp co (some 0) ey = analyze t sp co none ey ∧
    analyze t sp co sy (some 0) = analyze t sp co sy none := by
  refine ⟨?_, ?_, ?_, ?_⟩
  · simp only [analyze, applyFilters, filterSpecies_empty]
  · simp only [analyze, applyFilters, filterCountry_empty]
  · simp only [analyze, applyFilters, filterStart_zero]
  · simp only [analyze, applyFilters, filterEnd_zero]
